import Mathlib

/-!
Shallow embedding of `backend/crawlconfigs.py` (browsertrix-cloud crawl
config API): the pydantic data model, its validation, and the `CrawlOps`
coordination operations over a Mongo-like record store and an external
crawl manager (the orchestrator client).

Modelling conventions:
* The Mongo collection `crawl_configs` is a `List Doc` of stored documents.
* Each operation returns its result together with the store after the
  operation and an ordered trace of the store operations and crawl-manager
  (orchestrator) calls it issued, so ordering and absence of calls are
  provable.
* A Python `await` on a crawl-manager call that raises is modelled by the
  manager method returning `.error`; the operation then propagates the
  error and executes nothing after that point, exactly as an uncaught
  exception does.
* pydantic validation of a request body happens before the handler runs;
  it is modelled by the `validate...` functions on raw payload types.
  An `Optional` field that is absent takes its declared default (an
  explicit JSON `null` for a defaulted field is not modelled; no claim
  depends on it).
-/

set_option autoImplicit false

namespace CrawlConfigs

/-- Crawl scope type: the closed enumeration `ScopeType(str, Enum)` with
values `page`, `page-spa`, `prefix`, `host`, `any`. The constructor for
`"prefix"` is named `prefixScope` (plain `prefix` is not usable as a Lean
name here). -/
inductive ScopeType where
  | page
  | pageSpa
  | prefixScope
  | host
  | any
  deriving DecidableEq, Repr

/-- Parse a scope type string exactly as pydantic coerces a string to the
`ScopeType` enum: the member values succeed, anything else is a validation
failure (`none`). -/
def parseScopeType : String → Option ScopeType
  | "page" => some .page
  | "page-spa" => some .pageSpa
  | "prefix" => some .prefixScope
  | "host" => some .host
  | "any" => some .any
  | _ => none

/-- A value of Python type `Union[str, List[str]]` (used by the
include/exclude/scope filter fields). -/
inductive StrOrList where
  | str (s : String)
  | strs (l : List String)
  deriving DecidableEq, Repr

/-- A value of Python type `Union[bool, str]` (used by `Seed.sitemap`). -/
inductive BoolOrStr where
  | bool (b : Bool)
  | str (s : String)
  deriving DecidableEq, Repr

/-- Validated `Seed` model: url, scope type (defaulting to `prefix`),
include/exclude filters, sitemap flag/URL, hash flag, depth. Fields with
Python default `None` are `Option`; `scopeType` has default `prefixScope`. -/
structure Seed where
  url : String
  scopeType : ScopeType
  «include» : Option StrOrList
  exclude : Option StrOrList
  sitemap : Option BoolOrStr
  allowHash : Option Bool
  depth : Option Int
  deriving DecidableEq, Repr

/-- Raw (pre-validation) structured seed: `scopeType` is still an
unvalidated string, absent fields are `none`. -/
structure SeedRaw where
  url : String
  scopeType : Option String
  «include» : Option StrOrList
  exclude : Option StrOrList
  sitemap : Option BoolOrStr
  allowHash : Option Bool
  depth : Option Int
  deriving DecidableEq, Repr

/-- An element of `RawCrawlConfig.seeds : List[Union[str, Seed]]` after
validation: a bare URL string or a structured seed. -/
inductive SeedOrStr where
  | str (s : String)
  | seed (s : Seed)
  deriving DecidableEq, Repr

/-- An element of the raw seeds list before validation. -/
inductive SeedOrStrRaw where
  | str (s : String)
  | seed (s : SeedRaw)
  deriving DecidableEq, Repr

/-- Validated `RawCrawlConfig` ("Base Crawl Config"): the embedded crawl
behavior specification, all defaults applied. -/
structure RawCrawlConfig where
  seeds : List SeedOrStr
  collection : String
  scopeType : ScopeType
  scope : StrOrList
  exclude : StrOrList
  depth : Int
  limit : Int
  behaviorTimeout : Int
  workers : Int
  headless : Bool
  generateWACZ : Bool
  combineWARC : Bool
  logging : String
  behaviors : String
  deriving DecidableEq, Repr

/-- Raw (pre-validation) `RawCrawlConfig` payload: every optional field may
be absent (`none`), `scopeType` strings are not yet checked against the
enumeration. -/
structure RawCrawlConfigRaw where
  seeds : List SeedOrStrRaw
  collection : Option String
  scopeType : Option String
  scope : Option StrOrList
  exclude : Option StrOrList
  depth : Option Int
  limit : Option Int
  behaviorTimeout : Option Int
  workers : Option Int
  headless : Option Bool
  generateWACZ : Option Bool
  combineWARC : Option Bool
  logging : Option String
  behaviors : Option String
  deriving DecidableEq, Repr

/-- Validated `CrawlConfigIn` ("CrawlConfig input model, submitted via
API"), all defaults applied. Note: there is no range check on `parallel`
and no minimum length on `config.seeds` in the source model. -/
structure CrawlConfigIn where
  schedule : String
  runNow : Bool
  crawlTimeout : Int
  parallel : Int
  config : RawCrawlConfig
  deriving DecidableEq, Repr

/-- Raw (pre-validation) `CrawlConfigIn` request payload. -/
structure CrawlConfigInRaw where
  schedule : Option String
  runNow : Option Bool
  crawlTimeout : Option Int
  parallel : Option Int
  config : RawCrawlConfigRaw
  deriving DecidableEq, Repr

/-- The only data validation the pydantic models perform beyond structural
typing is coercion of scope-type strings into the `ScopeType` enumeration;
an invalid member value is the failure case. -/
inductive ValidationError where
  | invalidScopeType (s : String)
  deriving DecidableEq, Repr

/-- Validate one element of the seeds list: a bare string passes through
(`Union[str, Seed]` keeps strings as strings); a structured seed has its
`scopeType` coerced to the enum, defaulting to `prefix` when absent. -/
def validateSeed : SeedOrStrRaw → Except ValidationError SeedOrStr
  | .str s => .ok (.str s)
  | .seed s =>
    match s.scopeType with
    | none =>
      .ok (.seed ⟨s.url, .prefixScope, s.«include», s.exclude, s.sitemap,
                  s.allowHash, s.depth⟩)
    | some t =>
      match parseScopeType t with
      | none => .error (.invalidScopeType t)
      | some st =>
        .ok (.seed ⟨s.url, st, s.«include», s.exclude, s.sitemap,
                    s.allowHash, s.depth⟩)

/-- Validate a list of raw seeds left to right, failing on the first bad
element. An empty list validates successfully: `List[Union[str, Seed]]`
has no minimum length. -/
def validateSeeds : List SeedOrStrRaw → Except ValidationError (List SeedOrStr)
  | [] => .ok []
  | s :: rest =>
    match validateSeed s with
    | .error e => .error e
    | .ok v =>
      match validateSeeds rest with
      | .error e => .error e
      | .ok vs => .ok (v :: vs)

/-- Validate a raw `RawCrawlConfig` payload: coerce scope types, apply the
declared defaults (`collection = "my-web-archive"`, `scopeType = prefix`,
`scope = ""`, `exclude = ""`, `depth = -1`, `limit = 0`,
`behaviorTimeout = 90`, `workers = 1`, flags false, `logging = ""`,
`behaviors = "autoscroll"`). -/
def validateRawCrawlConfig (r : RawCrawlConfigRaw) :
    Except ValidationError RawCrawlConfig :=
  match validateSeeds r.seeds with
  | .error e => .error e
  | .ok seeds =>
    match r.scopeType with
    | none =>
      .ok ⟨seeds, r.collection.getD "my-web-archive", .prefixScope,
           r.scope.getD (.str ""), r.exclude.getD (.str ""),
           r.depth.getD (-1), r.limit.getD 0, r.behaviorTimeout.getD 90,
           r.workers.getD 1, r.headless.getD false,
           r.generateWACZ.getD false, r.combineWARC.getD false,
           r.logging.getD "", r.behaviors.getD "autoscroll"⟩
    | some t =>
      match parseScopeType t with
      | none => .error (.invalidScopeType t)
      | some st =>
        .ok ⟨seeds, r.collection.getD "my-web-archive", st,
             r.scope.getD (.str ""), r.exclude.getD (.str ""),
             r.depth.getD (-1), r.limit.getD 0, r.behaviorTimeout.getD 90,
             r.workers.getD 1, r.headless.getD false,
             r.generateWACZ.getD false, r.combineWARC.getD false,
             r.logging.getD "", r.behaviors.getD "autoscroll"⟩

/-- Validate a raw `CrawlConfigIn` request payload (defaults:
`schedule = ""`, `runNow = false`, `crawlTimeout = 0`, `parallel = 1`).
The source declares no lower bound on `parallel` and no non-emptiness
check on the seeds list, so neither is checked here. -/
def validateCrawlConfigIn (r : CrawlConfigInRaw) :
    Except ValidationError CrawlConfigIn :=
  match validateRawCrawlConfig r.config with
  | .error e => .error e
  | .ok cfg =>
    .ok ⟨r.schedule.getD "", r.runNow.getD false, r.crawlTimeout.getD 0,
         r.parallel.getD 1, cfg⟩

/-- The owning archive, as consumed by `crawlconfigs.py`: only its `id`
and its `storage` target are used. -/
structure Archive where
  id : String
  storage : String
  deriving DecidableEq, Repr

/-- The requesting user; only `str(user.id)` is used. -/
structure User where
  id : String
  deriving DecidableEq, Repr

/-- A document of the `crawl_configs` Mongo collection. `add_crawl_config`
inserts `config.dict()` extended with `archive`, `user` and `_id`
(field `id` here); `CrawlConfigIn` has no `crawlCount` field, so the
inserted document lacks it — `crawlCount` is `none` until the first
`$inc` materialises it. -/
structure Doc where
  id : String
  schedule : String
  runNow : Bool
  crawlTimeout : Int
  parallel : Int
  config : RawCrawlConfig
  archive : String
  user : String
  crawlCount : Option Int
  deriving DecidableEq, Repr

/-- The stored-model object `CrawlConfig(BaseMongoModel)` ("Schedulable
config"): what `CrawlConfig.from_dict` returns when reading a document
back. -/
structure CrawlConfig where
  id : String
  schedule : String
  runNow : Bool
  archive : Option String
  user : Option String
  config : RawCrawlConfig
  crawlTimeout : Int
  parallel : Int
  crawlCount : Int
  deriving DecidableEq, Repr

/-- Modelled from the spec: `db.BaseMongoModel.from_dict` lives in
`db.py`, which is not in the sources; per the spec's record-store reads it
constructs the pydantic model from a stored document, mapping `_id` to
`id` and filling declared defaults for absent fields — in particular an
absent `crawlCount` becomes its default `0`. -/
def CrawlConfig.from_dict (d : Doc) : CrawlConfig :=
  { id := d.id
    schedule := d.schedule
    runNow := d.runNow
    archive := some d.archive
    user := some d.user
    config := d.config
    crawlTimeout := d.crawlTimeout
    parallel := d.parallel
    crawlCount := d.crawlCount.getD 0 }

/-- The document `config.dict()` + `archive.id` + `str(user.id)` + fresh
`_id`, exactly as assembled by `CrawlOps.add_crawl_config` before
`insert_one`. -/
def mkDoc (config : CrawlConfigIn) (archive : Archive) (user : User)
    (freshId : String) : Doc :=
  { id := freshId
    schedule := config.schedule
    runNow := config.runNow
    crawlTimeout := config.crawlTimeout
    parallel := config.parallel
    config := config.config
    archive := archive.id
    user := user.id
    crawlCount := none }

/-- Mongo `insert_one` into `crawl_configs`: fails with `DuplicateKey`
when a document with the same `_id` already exists, otherwise appends. -/
inductive StoreError where
  | duplicateKey
  deriving DecidableEq, Repr

/-- Insert a document, enforcing `_id` uniqueness as Mongo does. -/
def insertOne (store : List Doc) (d : Doc) : Except StoreError (List Doc) :=
  if store.any (fun x => x.id == d.id) then .error .duplicateKey
  else .ok (store ++ [d])

/-- Mongo `find_one_and_update(filter, update)`: locate the first matching
document, apply the field update to it, return the pre-update document
(`none` when nothing matched) together with the updated store. -/
def findOneAndUpdate (p : Doc → Bool) (f : Doc → Doc) :
    List Doc → Option Doc × List Doc
  | [] => (none, [])
  | d :: ds =>
    if p d then (some d, f d :: ds)
    else
      let r := findOneAndUpdate p f ds
      (r.1, d :: r.2)

/-- Mongo `delete_one(filter)`: remove the first matching document,
returning the `deleted_count` (0 or 1) and the remaining store. -/
def deleteOneDoc (p : Doc → Bool) : List Doc → Nat × List Doc
  | [] => (0, [])
  | d :: ds =>
    if p d then (1, ds)
    else
      let r := deleteOneDoc p ds
      (r.1, d :: r.2)

/-- Mongo `find_one(filter)` over the collection. -/
def findOneDoc (p : Doc → Bool) (store : List Doc) : Option Doc :=
  store.find? p

/-- The crawl manager (orchestrator client) consumed by `CrawlOps`. Each
method models one awaited remote call; `.error msg` models the call
raising an exception with that message. Quantifying over this structure
quantifies over every possible orchestrator success/failure behavior. -/
structure CrawlManager where
  add_crawl_config : CrawlConfig → String → Except String String
  update_crawl_schedule : String → String → Except String Unit
  run_crawl_config : String → Except String String
  delete_crawl_config_by_id : String → Except String Unit

/-- One entry of an operation's trace: a store mutation or an orchestrator
call, in program order. -/
inductive Event where
  | insertOneEv (d : Doc)
  | setScheduleEv (cid : String) (sched : String)
  | incCrawlCountEv (cid : String)
  | deleteOneEv (cid : String) (archiveId : String)
  | mgrAddCrawlConfig (cfg : CrawlConfig) (storage : String)
  | mgrUpdateCrawlSchedule (cid : String) (sched : String)
  | mgrRunCrawlConfig (cid : String)
  | mgrDeleteCrawlConfigById (cid : String)
  deriving DecidableEq, Repr

/-- True exactly on the orchestrator-call trace entries. -/
def Event.isMgrCall : Event → Bool
  | .mgrAddCrawlConfig _ _ => true
  | .mgrUpdateCrawlSchedule _ _ => true
  | .mgrRunCrawlConfig _ => true
  | .mgrDeleteCrawlConfigById _ => true
  | _ => false

/-- True exactly on the immediate-run orchestrator call
(`crawl_manager.run_crawl_config`). -/
def Event.isMgrRunCrawlConfig : Event → Bool
  | .mgrRunCrawlConfig _ => true
  | _ => false

/-- True exactly on the store-delete trace entry. -/
def Event.isDeleteOne : Event → Bool
  | .deleteOneEv _ _ => true
  | _ => false

/-- Errors an operation can propagate: a store failure or an uncaught
orchestrator exception. The two constructors are distinct, so a caller can
tell an orchestrator failure from a store failure. -/
inductive OpError where
  | store (e : StoreError)
  | orch (msg : String)
  deriving DecidableEq, Repr

/-- Outcome of one `CrawlOps` operation: its returned value or error, the
record store afterwards, and the ordered trace of issued effects. -/
structure OpOut (α : Type) where
  result : Except OpError α
  store : List Doc
  trace : List Event
  deriving Repr

/-- Request body of PATCH `/{cid}/schedule`: "Update the crawl schedule". -/
structure UpdateSchedule where
  schedule : String
  deriving DecidableEq, Repr

/-- `CrawlOps.add_crawl_config`: build `config.dict()` + owner fields +
fresh `_id`, `insert_one` it, then call the crawl manager's
`add_crawl_config` with the model object and the archive's storage.
Returns `(inserted_id, new_name)` as the Python method returns
`(result, new_name)`. A store failure aborts before any orchestrator
call; an orchestrator failure propagates after the insert, leaving the
inserted document in place. -/
def CrawlOps.add_crawl_config (mgr : CrawlManager) (config : CrawlConfigIn)
    (archive : Archive) (user : User) (freshId : String)
    (store : List Doc) : OpOut (String × String) :=
  let data := mkDoc config archive user freshId
  match insertOne store data with
  | .error e => ⟨.error (.store e), store, [.insertOneEv data]⟩
  | .ok store2 =>
    let crawlconfig := CrawlConfig.from_dict data
    match mgr.add_crawl_config crawlconfig archive.storage with
    | .error msg =>
      ⟨.error (.orch msg), store2,
       [.insertOneEv data, .mgrAddCrawlConfig crawlconfig archive.storage]⟩
    | .ok newName =>
      ⟨.ok (freshId, newName), store2,
       [.insertOneEv data, .mgrAddCrawlConfig crawlconfig archive.storage]⟩

/-- `CrawlOps.update_crawl_schedule`: `find_one_and_update` setting only
the `schedule` field on `{"_id": cid}`; when nothing matched return
`false` without touching the manager, otherwise call the manager's
`update_crawl_schedule` and return `true`. -/
def CrawlOps.update_crawl_schedule (mgr : CrawlManager) (cid : String)
    (update : UpdateSchedule) (store : List Doc) : OpOut Bool :=
  let r := findOneAndUpdate (fun d => d.id == cid)
      (fun d => { d with schedule := update.schedule }) store
  match r.1 with
  | none => ⟨.ok false, r.2, [.setScheduleEv cid update.schedule]⟩
  | some _ =>
    match mgr.update_crawl_schedule cid update.schedule with
    | .error msg =>
      ⟨.error (.orch msg), r.2,
       [.setScheduleEv cid update.schedule,
        .mgrUpdateCrawlSchedule cid update.schedule]⟩
    | .ok _ =>
      ⟨.ok true, r.2,
       [.setScheduleEv cid update.schedule,
        .mgrUpdateCrawlSchedule cid update.schedule]⟩

/-- `CrawlOps.inc_crawls`: `find_one_and_update({"_id": cid},
{"$inc": {"crawlCount": 1}})` with the result ignored — it never raises,
whether or not a document matched. Mongo's `$inc` on an absent field
creates it holding the increment, i.e. `getD 0 + 1`. -/
def CrawlOps.inc_crawls (cid : String) (store : List Doc) : OpOut Unit :=
  let r := findOneAndUpdate (fun d => d.id == cid)
      (fun d => { d with crawlCount := some (d.crawlCount.getD 0 + 1) }) store
  ⟨.ok (), r.2, [.incCrawlCountEv cid]⟩

/-- `CrawlOps.get_crawl_config`: `find_one({"_id": cid, "archive":
archive.id})` read back through `CrawlConfig.from_dict`; `none` when no
document matches both the id and the caller's archive. -/
def CrawlOps.get_crawl_config (cid : String) (archive : Archive)
    (store : List Doc) : Option CrawlConfig :=
  (findOneDoc (fun d => d.id == cid && d.archive == archive.id) store).map
    CrawlConfig.from_dict

/-- `CrawlOps.delete_crawl_config`: first await the manager's
`delete_crawl_config_by_id(cid)` (keyed on the id alone), then
`delete_one({"_id": cid, "archive": archive.id})`, returning the deleted
count. A manager failure propagates before the store is consulted. -/
def CrawlOps.delete_crawl_config (mgr : CrawlManager) (cid : String)
    (archive : Archive) (store : List Doc) : OpOut Nat :=
  match mgr.delete_crawl_config_by_id cid with
  | .error msg => ⟨.error (.orch msg), store, [.mgrDeleteCrawlConfigById cid]⟩
  | .ok _ =>
    let r := deleteOneDoc (fun d => d.id == cid && d.archive == archive.id)
        store
    ⟨.ok r.1, r.2, [.mgrDeleteCrawlConfigById cid, .deleteOneEv cid archive.id]⟩

/-- Outcomes of the HTTP route handlers in `init_crawl_config_api`:
pydantic body validation failure (422, raised before the handler runs),
`HTTPException` 404/403/500, or an exception the handler does not catch. -/
inductive RouteError where
  | validationFailed (e : ValidationError)
  | notFound
  | forbidden (e : OpError)
  | serverError (msg : String)
  | unhandled (e : OpError)
  deriving DecidableEq, Repr

/-- Outcome of a route: response or error, plus resulting store and
effect trace. -/
structure RouteOut (α : Type) where
  result : Except RouteError α
  store : List Doc
  trace : List Event
  deriving Repr

/-- POST `/crawlconfigs/`: FastAPI validates the body into
`CrawlConfigIn` before the handler runs (a validation failure means the
handler, the store and the manager are never reached), then the handler
returns `{"added": inserted_id, "run_now_job": new_job_name}`. -/
def add_crawl_config_api (mgr : CrawlManager) (raw : CrawlConfigInRaw)
    (archive : Archive) (user : User) (freshId : String)
    (store : List Doc) : RouteOut (String × String) :=
  match validateCrawlConfigIn raw with
  | .error e => ⟨.error (.validationFailed e), store, []⟩
  | .ok config =>
    let out := CrawlOps.add_crawl_config mgr config archive user freshId store
    match out.result with
    | .error e => ⟨.error (.unhandled e), out.store, out.trace⟩
    | .ok r => ⟨.ok r, out.store, out.trace⟩

/-- PATCH `/crawlconfigs/{cid}/schedule`: exceptions from the operation
become 403, an unmatched id becomes 404, success answers
`{"updated": cid}`. -/
def update_crawl_schedule_api (mgr : CrawlManager) (update : UpdateSchedule)
    (cid : String) (store : List Doc) : RouteOut String :=
  let out := CrawlOps.update_crawl_schedule mgr cid update store
  match out.result with
  | .error e => ⟨.error (.forbidden e), out.store, out.trace⟩
  | .ok true => ⟨.ok cid, out.store, out.trace⟩
  | .ok false => ⟨.error .notFound, out.store, out.trace⟩

/-- POST `/crawlconfigs/{cid}/run`: look the config up first and answer
404 without any orchestrator call when it is absent; otherwise ask the
manager to `run_crawl_config(cid)`, turning its exception into a 500 and
its run id into `{"started": crawl_id}`. The store is never written. -/
def run_now_api (mgr : CrawlManager) (cid : String) (archive : Archive)
    (store : List Doc) : RouteOut String :=
  match CrawlOps.get_crawl_config cid archive store with
  | none => ⟨.error .notFound, store, []⟩
  | some _ =>
    match mgr.run_crawl_config cid with
    | .error msg => ⟨.error (.serverError msg), store, [.mgrRunCrawlConfig cid]⟩
    | .ok crawlId => ⟨.ok crawlId, store, [.mgrRunCrawlConfig cid]⟩

/-- DELETE `/crawlconfigs/{cid}`: run the delete operation; a zero
`deleted_count` becomes 404, otherwise the handler answers
`{"deleted": 1}`. -/
def delete_crawl_config_api (mgr : CrawlManager) (cid : String)
    (archive : Archive) (store : List Doc) : RouteOut Nat :=
  let out := CrawlOps.delete_crawl_config mgr cid archive store
  match out.result with
  | .error e => ⟨.error (.unhandled e), out.store, out.trace⟩
  | .ok deletedCount =>
    if deletedCount = 0 then ⟨.error .notFound, out.store, out.trace⟩
    else ⟨.ok 1, out.store, out.trace⟩

/-- A crawl manager whose calls all succeed with fixed identifiers. -/
def okManager : CrawlManager :=
  { add_crawl_config := fun _ _ => .ok "job-1"
    update_crawl_schedule := fun _ _ => .ok ()
    run_crawl_config := fun _ => .ok "crawl-1"
    delete_crawl_config_by_id := fun _ => .ok () }

/-- A crawl manager whose calls all raise. -/
def downManager : CrawlManager :=
  { add_crawl_config := fun _ _ => .error "orchestrator down"
    update_crawl_schedule := fun _ _ => .error "orchestrator down"
    run_crawl_config := fun _ => .error "orchestrator down"
    delete_crawl_config_by_id := fun _ => .error "orchestrator down" }

/-- A concrete owning archive. -/
def sampleArchive : Archive := ⟨"archive-1", "s3-default"⟩

/-- A concrete requesting user. -/
def sampleUser : User := ⟨"user-1"⟩

/-- A raw embedded config with no seeds and every optional field absent. -/
def emptyRawConfig : RawCrawlConfigRaw :=
  ⟨[], none, none, none, none, none, none, none, none, none, none, none,
   none, none⟩

/-- A raw embedded config with a single bare-URL seed. -/
def sampleRawConfig : RawCrawlConfigRaw :=
  { emptyRawConfig with seeds := [.str "https://example.com/"] }

/-- The validated form of `sampleRawConfig`, all defaults applied. -/
def sampleConfigValidated : RawCrawlConfig :=
  ⟨[.str "https://example.com/"], "my-web-archive", .prefixScope, .str "",
   .str "", -1, 0, 90, 1, false, false, false, "", "autoscroll"⟩

/-- A well-formed create payload: daily schedule, two workers. -/
def validPayload : CrawlConfigInRaw :=
  ⟨some "0 0 * * *", some false, none, some 2, sampleRawConfig⟩

/-- A payload with `parallel = 0` (below the spec's claimed minimum) and
an empty seeds list. -/
def lowParallelNoSeedsPayload : CrawlConfigInRaw :=
  ⟨none, none, none, some 0, emptyRawConfig⟩

/-- A payload whose embedded config names a scope type outside the
enumeration. -/
def badScopePayload : CrawlConfigInRaw :=
  ⟨none, none, none, none, { sampleRawConfig with scopeType := some "domain" }⟩

/-- A payload with `schedule = ""` and `runNow = true`. -/
def runNowPayload : CrawlConfigInRaw :=
  ⟨some "", some true, none, some 2, sampleRawConfig⟩

/-- A stored document for an existing config `cfg-1` of `archive-1` with
three completed crawls. -/
def sampleStoredDoc : Doc :=
  { id := "cfg-1"
    schedule := "0 0 * * *"
    runNow := false
    crawlTimeout := 0
    parallel := 2
    config := sampleConfigValidated
    archive := "archive-1"
    user := "user-1"
    crawlCount := some 3 }

/-- A second stored document, for a different config of the same archive,
whose `crawlCount` field is still absent. -/
def otherStoredDoc : Doc :=
  { id := "cfg-2"
    schedule := ""
    runNow := false
    crawlTimeout := 0
    parallel := 1
    config := sampleConfigValidated
    archive := "archive-1"
    user := "user-1"
    crawlCount := none }

/-- When no document satisfies the filter, `find_one_and_update` matches
nothing and leaves the store unchanged. -/
theorem findOneAndUpdate_of_none {p : Doc → Bool} {f : Doc → Doc}
    {l : List Doc} (h : ∀ d ∈ l, p d = false) :
    findOneAndUpdate p f l = (none, l) := by
  induction l with
  | nil => rfl
  | cons d ds ih =>
    have hd := h d (List.mem_cons_self d ds)
    have hds := ih fun x hx => h x (List.mem_cons_of_mem d hx)
    simp [findOneAndUpdate, hd, hds]

/-- A pointwise-fixed map is the identity: auxiliary for the no-match
frame arguments. -/
theorem map_ite_id {cid : String} {f : Doc → Doc} {l : List Doc}
    (h : ∀ d ∈ l, d.id ≠ cid) :
    l.map (fun d => if d.id = cid then f d else d) = l := by
  induction l with
  | nil => rfl
  | cons d ds ih =>
    have hd := h d (List.mem_cons_self d ds)
    have hds := ih fun x hx => h x (List.mem_cons_of_mem d hx)
    simp [hd, hds]

/-- Under unique `_id`s, updating the first document matching an id is
the same as mapping the update over exactly the matching documents: the
form that makes the per-field frame conditions visible. -/
theorem findOneAndUpdate_snd_eq_map (cid : String) (f : Doc → Doc)
    (l : List Doc) (hnd : (l.map Doc.id).Nodup) :
    (findOneAndUpdate (fun d => d.id == cid) f l).2 =
      l.map (fun d => if d.id = cid then f d else d) := by
  induction l with
  | nil => rfl
  | cons d ds ih =>
    rw [List.map_cons, List.nodup_cons] at hnd
    by_cases hd : d.id = cid
    · have hrest : ∀ x ∈ ds, x.id ≠ cid := by
        intro x hx hxid
        exact hnd.1 (hd ▸ hxid ▸ List.mem_map_of_mem Doc.id hx)
      simp [findOneAndUpdate, hd, map_ite_id hrest]
    · have hbeq : (d.id == cid) = false := by
        simp [hd]
      simp [findOneAndUpdate, hbeq, hd, ih hnd.2]

/-- When no document satisfies the filter, `delete_one` removes nothing:
`deleted_count = 0` and the store is unchanged. -/
theorem deleteOneDoc_of_none {p : Doc → Bool} {l : List Doc}
    (h : ∀ d ∈ l, p d = false) :
    deleteOneDoc p l = (0, l) := by
  induction l with
  | nil => rfl
  | cons d ds ih =>
    have hd := h d (List.mem_cons_self d ds)
    have hds := ih fun x hx => h x (List.mem_cons_of_mem d hx)
    simp [deleteOneDoc, hd, hds]

/-- C1: in every `Delete(id)` invocation the orchestrator deregistration
for the id is issued before the record is removed from the store (the
trace is either the lone deregistration call or the deregistration call
followed by the store delete), and if the deregistration call fails the
store is left unchanged and the store delete is never issued. -/
theorem delete_deregisters_before_store_delete (mgr : CrawlManager)
    (cid : String) (archive : Archive) (store : List Doc) :
    ((CrawlOps.delete_crawl_config mgr cid archive store).trace =
        [.mgrDeleteCrawlConfigById cid] ∨
      (CrawlOps.delete_crawl_config mgr cid archive store).trace =
        [.mgrDeleteCrawlConfigById cid, .deleteOneEv cid archive.id]) ∧
    (∀ msg, mgr.delete_crawl_config_by_id cid = .error msg →
      (CrawlOps.delete_crawl_config mgr cid archive store).store = store ∧
      (CrawlOps.delete_crawl_config mgr cid archive store).trace =
        [.mgrDeleteCrawlConfigById cid]) := by
  unfold CrawlOps.delete_crawl_config
  cases h : mgr.delete_crawl_config_by_id cid <;> simp [h]

/-- Witness for C1 at a concrete input: with the failing manager the
deregistration call raises and the stored record survives. -/
theorem delete_deregisters_before_store_delete_witness :
    downManager.delete_crawl_config_by_id "cfg-1" =
      .error "orchestrator down" ∧
    (CrawlOps.delete_crawl_config downManager "cfg-1" sampleArchive
        [sampleStoredDoc]).store = [sampleStoredDoc] :=
  ⟨rfl,
   ((delete_deregisters_before_store_delete downManager "cfg-1"
      sampleArchive [sampleStoredDoc]).2 "orchestrator down" rfl).1⟩

/-- C9: `TriggerRun` (POST `/{cid}/run`) on an id with no stored record
matching both the id and the caller's archive answers 404 without issuing
any orchestrator call and without mutating the store. -/
theorem run_now_not_found_no_orch_call (mgr : CrawlManager) (cid : String)
    (archive : Archive) (store : List Doc)
    (h : CrawlOps.get_crawl_config cid archive store = none) :
    (run_now_api mgr cid archive store).result = .error .notFound ∧
    (run_now_api mgr cid archive store).store = store ∧
    (run_now_api mgr cid archive store).trace = [] := by
  unfold run_now_api
  simp [h]

/-- Witness for C9 at a concrete input: the store holds only a config of
another id, so the lookup misses. -/
theorem run_now_not_found_no_orch_call_witness :
    CrawlOps.get_crawl_config "missing" sampleArchive [sampleStoredDoc] =
      none ∧
    (run_now_api okManager "missing" sampleArchive [sampleStoredDoc]).trace =
      [] :=
  ⟨rfl,
   (run_now_not_found_no_orch_call okManager "missing" sampleArchive
      [sampleStoredDoc] rfl).2.2⟩

/-- C10: when the manager's deregistration succeeds but no stored record
matches both the id and the caller's archive, `Delete` still issues the
deregistration — keyed on the id alone — before the store delete, the
store delete removes nothing, and the route reports 404: the orchestrator
side is driven even on the not-found path. -/
theorem delete_not_found_still_deregisters (mgr : CrawlManager)
    (cid : String) (archive : Archive) (store : List Doc)
    (hok : mgr.delete_crawl_config_by_id cid = .ok ())
    (hmiss : ∀ d ∈ store, (d.id == cid && d.archive == archive.id) = false) :
    (delete_crawl_config_api mgr cid archive store).result =
      .error .notFound ∧
    (delete_crawl_config_api mgr cid archive store).store = store ∧
    (delete_crawl_config_api mgr cid archive store).trace =
      [.mgrDeleteCrawlConfigById cid, .deleteOneEv cid archive.id] := by
  unfold delete_crawl_config_api CrawlOps.delete_crawl_config
  simp [hok, deleteOneDoc_of_none hmiss]

/-- Witness for C10 at a concrete input: the only stored record has a
different id, yet the trace still opens with the deregistration call. -/
theorem delete_not_found_still_deregisters_witness :
    okManager.delete_crawl_config_by_id "missing" = .ok () ∧
    (∀ d ∈ [sampleStoredDoc],
      (d.id == "missing" && d.archive == sampleArchive.id) = false) ∧
    (delete_crawl_config_api okManager "missing" sampleArchive
        [sampleStoredDoc]).trace =
      [.mgrDeleteCrawlConfigById "missing",
       .deleteOneEv "missing" "archive-1"] :=
  ⟨rfl, by decide,
   (delete_not_found_still_deregisters okManager "missing" sampleArchive
      [sampleStoredDoc] rfl (by decide)).2.2⟩

/-- The assembled document carries the fresh id as its `_id`. -/
theorem mkDoc_id (config : CrawlConfigIn) (archive : Archive) (user : User)
    (freshId : String) : (mkDoc config archive user freshId).id = freshId :=
  rfl

/-- The assembled document is stamped with the owning archive's id. -/
theorem mkDoc_archive (config : CrawlConfigIn) (archive : Archive)
    (user : User) (freshId : String) :
    (mkDoc config archive user freshId).archive = archive.id :=
  rfl

/-- The assembled document carries the payload's `runNow` value. -/
theorem mkDoc_runNow (config : CrawlConfigIn) (archive : Archive)
    (user : User) (freshId : String) :
    (mkDoc config archive user freshId).runNow = config.runNow :=
  rfl

/-- C2: when the insert succeeds (the fresh id collides with nothing) but
the orchestrator registration call fails, `Create` reports the
orchestrator error — a constructor distinct from any store error — and
the inserted record stays persisted, so `Get` on the new id under the
same archive still returns it. -/
theorem create_orch_failure_keeps_record (mgr : CrawlManager)
    (config : CrawlConfigIn) (archive : Archive) (user : User)
    (freshId : String) (store : List Doc) (msg : String)
    (hfresh : ∀ d ∈ store, (d.id == freshId) = false)
    (hmgr : mgr.add_crawl_config
        (CrawlConfig.from_dict (mkDoc config archive user freshId))
        archive.storage = .error msg) :
    (CrawlOps.add_crawl_config mgr config archive user freshId store).result
      = .error (.orch msg) ∧
    (CrawlOps.add_crawl_config mgr config archive user freshId store).store
      = store ++ [mkDoc config archive user freshId] ∧
    CrawlOps.get_crawl_config freshId archive
        (CrawlOps.add_crawl_config mgr config archive user freshId
          store).store
      = some (CrawlConfig.from_dict (mkDoc config archive user freshId)) := by
  have hany : (store.any fun x => x.id == freshId) = false :=
    List.any_eq_false.mpr fun x hx => by simp [hfresh x hx]
  have hfind : (store.find? fun d => d.id == freshId &&
      d.archive == archive.id) = none :=
    List.find?_eq_none.mpr fun x hx => by simp [hfresh x hx]
  refine ⟨?_, ?_, ?_⟩ <;>
    simp [CrawlOps.add_crawl_config, insertOne, mkDoc_id, hany, hmgr,
      CrawlOps.get_crawl_config, findOneDoc, List.find?_append, hfind,
      mkDoc_archive]

/-- Witness for C2 at a concrete input: the manager is down, the insert
succeeded, and the record is still readable. -/
theorem create_orch_failure_keeps_record_witness :
    (∀ d ∈ [sampleStoredDoc], (d.id == "new-id") = false) ∧
    downManager.add_crawl_config
      (CrawlConfig.from_dict
        (mkDoc ⟨"0 0 * * *", false, 0, 2, sampleConfigValidated⟩
          sampleArchive sampleUser "new-id"))
      sampleArchive.storage = .error "orchestrator down" ∧
    CrawlOps.get_crawl_config "new-id" sampleArchive
        (CrawlOps.add_crawl_config downManager
          ⟨"0 0 * * *", false, 0, 2, sampleConfigValidated⟩
          sampleArchive sampleUser "new-id" [sampleStoredDoc]).store
      = some (CrawlConfig.from_dict
          (mkDoc ⟨"0 0 * * *", false, 0, 2, sampleConfigValidated⟩
            sampleArchive sampleUser "new-id")) :=
  ⟨by decide, rfl,
   (create_orch_failure_keeps_record downManager
      ⟨"0 0 * * *", false, 0, 2, sampleConfigValidated⟩
      sampleArchive sampleUser "new-id" [sampleStoredDoc]
      "orchestrator down" (by decide) rfl).2.2⟩

/-- C4: under unique stored ids, `IncrementRunCount` never raises, and
its store write maps exactly the document matching the id to the same
document with `crawlCount` replaced by its effective value plus one,
leaving every other field and every other document untouched; when no
document matches, the store is returned unchanged. -/
theorem inc_crawls_adds_exactly_one (cid : String) (store : List Doc)
    (hnd : (store.map Doc.id).Nodup) :
    (CrawlOps.inc_crawls cid store).result = .ok () ∧
    (CrawlOps.inc_crawls cid store).store =
      store.map (fun d => if d.id = cid then
        { d with crawlCount := some (d.crawlCount.getD 0 + 1) } else d) ∧
    ((store.find? fun d => d.id == cid) = none →
      (CrawlOps.inc_crawls cid store).store = store) := by
  have hmap := findOneAndUpdate_snd_eq_map cid
    (fun d => { d with crawlCount := some (d.crawlCount.getD 0 + 1) })
    store hnd
  refine ⟨rfl, by simpa [CrawlOps.inc_crawls] using hmap, ?_⟩
  intro hnone
  have hne : ∀ d ∈ store, d.id ≠ cid := by
    intro d hd
    have := List.find?_eq_none.mp hnone d hd
    simpa using this
  simp [CrawlOps.inc_crawls, hmap, map_ite_id hne]

/-- Witness for C4 at a concrete input: two stored configs with distinct
ids; incrementing `cfg-1` touches only its `crawlCount`. -/
theorem inc_crawls_adds_exactly_one_witness :
    ([sampleStoredDoc, otherStoredDoc].map Doc.id).Nodup ∧
    (CrawlOps.inc_crawls "cfg-1" [sampleStoredDoc, otherStoredDoc]).store =
      [sampleStoredDoc, otherStoredDoc].map (fun d => if d.id = "cfg-1" then
        { d with crawlCount := some (d.crawlCount.getD 0 + 1) } else d) :=
  ⟨by decide,
   (inc_crawls_adds_exactly_one "cfg-1" [sampleStoredDoc, otherStoredDoc]
      (by decide)).2.1⟩

/-- C8: under unique stored ids, the store write of `UpdateSchedule` maps
exactly the document matching the id to the same document with only its
`schedule` field replaced — `crawlCount` and every other field, and every
other document, are unchanged — whatever the manager call then does. -/
theorem update_schedule_changes_only_schedule (mgr : CrawlManager)
    (cid : String) (update : UpdateSchedule) (store : List Doc)
    (hnd : (store.map Doc.id).Nodup) :
    (CrawlOps.update_crawl_schedule mgr cid update store).store =
      store.map (fun d => if d.id = cid then
        { d with schedule := update.schedule } else d) := by
  have hmap := findOneAndUpdate_snd_eq_map cid
    (fun d => { d with schedule := update.schedule }) store hnd
  unfold CrawlOps.update_crawl_schedule
  cases hfst : (findOneAndUpdate (fun d => d.id == cid)
      (fun d => { d with schedule := update.schedule }) store).1 with
  | none => simpa [hfst] using hmap
  | some d =>
    cases hm : mgr.update_crawl_schedule cid update.schedule <;>
      simpa [hfst, hm] using hmap

/-- Witness for C8 at a concrete input: rescheduling `cfg-1` rewrites its
`schedule` and nothing else; `cfg-2` is untouched. -/
theorem update_schedule_changes_only_schedule_witness :
    ([sampleStoredDoc, otherStoredDoc].map Doc.id).Nodup ∧
    (CrawlOps.update_crawl_schedule okManager "cfg-1" ⟨"30 6 * * *"⟩
        [sampleStoredDoc, otherStoredDoc]).store =
      [sampleStoredDoc, otherStoredDoc].map (fun d => if d.id = "cfg-1" then
        { d with schedule := "30 6 * * *" } else d) :=
  ⟨by decide,
   update_schedule_changes_only_schedule okManager "cfg-1" ⟨"30 6 * * *"⟩
     [sampleStoredDoc, otherStoredDoc] (by decide)⟩

/-- C3 counterexample: a payload with `parallel = 0` and an empty seeds
list passes validation — the models declare no lower bound on `parallel`
and no minimum seeds length — and the create route then inserts a record
and calls the orchestrator instead of failing with a validation error. -/
theorem create_low_parallel_empty_seeds_accepted :
    lowParallelNoSeedsPayload.parallel = some 0 ∧
    lowParallelNoSeedsPayload.config.seeds = [] ∧
    validateCrawlConfigIn lowParallelNoSeedsPayload =
      .ok ⟨"", false, 0, 0,
        ⟨[], "my-web-archive", .prefixScope, .str "", .str "", -1, 0, 90, 1,
         false, false, false, "", "autoscroll"⟩⟩ ∧
    (add_crawl_config_api okManager lowParallelNoSeedsPayload sampleArchive
        sampleUser "new-id" []).result = .ok ("new-id", "job-1") ∧
    (add_crawl_config_api okManager lowParallelNoSeedsPayload sampleArchive
        sampleUser "new-id" []).store.length = 1 ∧
    (add_crawl_config_api okManager lowParallelNoSeedsPayload sampleArchive
        sampleUser "new-id" []).trace.any Event.isMgrCall = true :=
  ⟨rfl, rfl, rfl, rfl, rfl, rfl⟩

/-- C3 amended: the only data validation the request models perform is
the scope-type enumeration check; when it fails the request is rejected
before the handler runs, so no record is inserted and no orchestrator
call is made. -/
theorem create_validation_failure_no_mutation (mgr : CrawlManager)
    (raw : CrawlConfigInRaw) (archive : Archive) (user : User)
    (freshId : String) (store : List Doc) (e : ValidationError)
    (h : validateCrawlConfigIn raw = .error e) :
    (add_crawl_config_api mgr raw archive user freshId store).result =
      .error (.validationFailed e) ∧
    (add_crawl_config_api mgr raw archive user freshId store).store =
      store ∧
    (add_crawl_config_api mgr raw archive user freshId store).trace = [] := by
  unfold add_crawl_config_api
  simp [h]

/-- Witness for the amended C3 at a concrete input: the scope type
`"domain"` is outside the enumeration and the store stays empty. -/
theorem create_validation_failure_no_mutation_witness :
    validateCrawlConfigIn badScopePayload =
      .error (.invalidScopeType "domain") ∧
    (add_crawl_config_api okManager badScopePayload sampleArchive
        sampleUser "new-id" []).store = [] :=
  ⟨rfl,
   (create_validation_failure_no_mutation okManager badScopePayload
      sampleArchive sampleUser "new-id" [] (.invalidScopeType "domain")
      rfl).2.1⟩

/-- C5 counterexample: creating a config with `runNow = true` issues no
immediate-run orchestrator call — the trace holds exactly one
orchestrator call, the registration — even though the create result does
carry that single call's job name. -/
theorem create_run_now_no_distinct_run_call :
    (validateCrawlConfigIn runNowPayload).toOption.map CrawlConfigIn.runNow
      = some true ∧
    (add_crawl_config_api okManager runNowPayload sampleArchive sampleUser
        "new-id" []).result = .ok ("new-id", "job-1") ∧
    (add_crawl_config_api okManager runNowPayload sampleArchive sampleUser
        "new-id" []).trace.any Event.isMgrRunCrawlConfig = false ∧
    ((add_crawl_config_api okManager runNowPayload sampleArchive sampleUser
        "new-id" []).trace.filter Event.isMgrCall).length = 1 :=
  ⟨rfl, rfl, rfl, rfl⟩

/-- C5 amended: every `Create` issues exactly one orchestrator call — the
registration, whose payload carries the whole model object including the
`runNow` flag — and when that call succeeds its returned job name is what
is returned alongside the new record id (the route labels it
`run_now_job`); no separate immediate-run call is made. -/
theorem create_single_orchestrator_call (mgr : CrawlManager)
    (config : CrawlConfigIn) (archive : Archive) (user : User)
    (freshId : String) (store : List Doc)
    (hfresh : ∀ d ∈ store, (d.id == freshId) = false) :
    ((CrawlOps.add_crawl_config mgr config archive user freshId
        store).trace.filter Event.isMgrCall) =
      [.mgrAddCrawlConfig
        (CrawlConfig.from_dict (mkDoc config archive user freshId))
        archive.storage] ∧
    (CrawlConfig.from_dict (mkDoc config archive user freshId)).runNow =
      config.runNow ∧
    (∀ name, mgr.add_crawl_config
        (CrawlConfig.from_dict (mkDoc config archive user freshId))
        archive.storage = .ok name →
      (CrawlOps.add_crawl_config mgr config archive user freshId
        store).result = .ok (freshId, name)) := by
  have hany : (store.any fun x => x.id == freshId) = false :=
    List.any_eq_false.mpr fun x hx => by simp [hfresh x hx]
  refine ⟨?_, rfl, ?_⟩ <;> unfold CrawlOps.add_crawl_config insertOne
  · cases hm : mgr.add_crawl_config
        (CrawlConfig.from_dict (mkDoc config archive user freshId))
        archive.storage <;>
      simp [mkDoc_id, hany, hm, Event.isMgrCall]
  · intro name hm
    simp [mkDoc_id, hany, hm]

/-- Witness for the amended C5 at a concrete input. -/
theorem create_single_orchestrator_call_witness :
    (∀ d ∈ ([] : List Doc), (d.id == "new-id") = false) ∧
    ((CrawlOps.add_crawl_config okManager
        ⟨"", true, 0, 2, sampleConfigValidated⟩ sampleArchive sampleUser
        "new-id" []).trace.filter Event.isMgrCall) =
      [.mgrAddCrawlConfig
        (CrawlConfig.from_dict
          (mkDoc ⟨"", true, 0, 2, sampleConfigValidated⟩ sampleArchive
            sampleUser "new-id"))
        "s3-default"] :=
  ⟨by simp,
   (create_single_orchestrator_call okManager
      ⟨"", true, 0, 2, sampleConfigValidated⟩ sampleArchive sampleUser
      "new-id" [] (by simp)).1⟩

/-- C6 counterexample: after a successful create of a `runNow = true`
payload, the stored document's `runNow` field is `true` — the flag is
persisted in the record, not stripped at creation time. -/
theorem run_now_flag_persisted_counterexample :
    (validateCrawlConfigIn runNowPayload).toOption.map CrawlConfigIn.runNow
      = some true ∧
    (add_crawl_config_api okManager runNowPayload sampleArchive sampleUser
        "new-id" []).result = .ok ("new-id", "job-1") ∧
    (add_crawl_config_api okManager runNowPayload sampleArchive sampleUser
        "new-id" []).store.map Doc.runNow = [true] :=
  ⟨rfl, rfl, rfl⟩

/-- C6 amended: `Create` persists the `runNow` flag verbatim — the
inserted document is the payload's fields (including `runNow`) plus the
owner stamps and fresh id, and the stored model keeps a `runNow` field. -/
theorem create_persists_run_now (mgr : CrawlManager)
    (config : CrawlConfigIn) (archive : Archive) (user : User)
    (freshId : String) (store : List Doc)
    (hfresh : ∀ d ∈ store, (d.id == freshId) = false) :
    (CrawlOps.add_crawl_config mgr config archive user freshId store).store
      = store ++ [mkDoc config archive user freshId] ∧
    (mkDoc config archive user freshId).runNow = config.runNow := by
  have hany : (store.any fun x => x.id == freshId) = false :=
    List.any_eq_false.mpr fun x hx => by simp [hfresh x hx]
  unfold CrawlOps.add_crawl_config insertOne
  cases hm : mgr.add_crawl_config
      (CrawlConfig.from_dict (mkDoc config archive user freshId))
      archive.storage <;>
    simp [mkDoc_id, mkDoc_runNow, hany, hm]

/-- Witness for the amended C6 at a concrete input. -/
theorem create_persists_run_now_witness :
    (∀ d ∈ ([] : List Doc), (d.id == "new-id") = false) ∧
    (CrawlOps.add_crawl_config okManager
        ⟨"", true, 0, 2, sampleConfigValidated⟩ sampleArchive sampleUser
        "new-id" []).store =
      [mkDoc ⟨"", true, 0, 2, sampleConfigValidated⟩ sampleArchive
        sampleUser "new-id"] :=
  ⟨by simp,
   (create_persists_run_now okManager
      ⟨"", true, 0, 2, sampleConfigValidated⟩ sampleArchive sampleUser
      "new-id" [] (by simp)).1⟩

/-- C7: for a payload that validates, a successful `Create` followed by
`Get` on the returned id under the same archive yields a record whose
fields are exactly the validated input plus the owner stamps, with
`crawlCount = 0`. -/
theorem create_then_get_roundtrip (mgr : CrawlManager)
    (raw : CrawlConfigInRaw) (config : CrawlConfigIn) (archive : Archive)
    (user : User) (freshId : String) (store : List Doc) (name : String)
    (hval : validateCrawlConfigIn raw = .ok config)
    (hfresh : ∀ d ∈ store, (d.id == freshId) = false)
    (hmgr : mgr.add_crawl_config
        (CrawlConfig.from_dict (mkDoc config archive user freshId))
        archive.storage = .ok name) :
    (CrawlOps.add_crawl_config mgr config archive user freshId store).result
      = .ok (freshId, name) ∧
    CrawlOps.get_crawl_config freshId archive
        (CrawlOps.add_crawl_config mgr config archive user freshId
          store).store =
      some { id := freshId, schedule := config.schedule,
             runNow := config.runNow, archive := some archive.id,
             user := some user.id, config := config.config,
             crawlTimeout := config.crawlTimeout,
             parallel := config.parallel, crawlCount := 0 } := by
  have hany : (store.any fun x => x.id == freshId) = false :=
    List.any_eq_false.mpr fun x hx => by simp [hfresh x hx]
  have hfind : (store.find? fun d => d.id == freshId &&
      d.archive == archive.id) = none :=
    List.find?_eq_none.mpr fun x hx => by simp [hfresh x hx]
  refine ⟨?_, ?_⟩ <;>
    simp [CrawlOps.add_crawl_config, insertOne, mkDoc_id, hany, hmgr,
      CrawlOps.get_crawl_config, findOneDoc, List.find?_append, hfind,
      mkDoc_archive] <;>
    simp [CrawlConfig.from_dict, mkDoc]

/-- Witness for C7 at a concrete input: `validPayload` validates, the id
is fresh for the empty store, and the manager succeeds. -/
theorem create_then_get_roundtrip_witness :
    validateCrawlConfigIn validPayload =
      .ok ⟨"0 0 * * *", false, 0, 2, sampleConfigValidated⟩ ∧
    (∀ d ∈ ([] : List Doc), (d.id == "new-id") = false) ∧
    okManager.add_crawl_config
      (CrawlConfig.from_dict
        (mkDoc ⟨"0 0 * * *", false, 0, 2, sampleConfigValidated⟩
          sampleArchive sampleUser "new-id"))
      sampleArchive.storage = .ok "job-1" ∧
    CrawlOps.get_crawl_config "new-id" sampleArchive
        (CrawlOps.add_crawl_config okManager
          ⟨"0 0 * * *", false, 0, 2, sampleConfigValidated⟩
          sampleArchive sampleUser "new-id" []).store =
      some { id := "new-id", schedule := "0 0 * * *", runNow := false,
             archive := some "archive-1", user := some "user-1",
             config := sampleConfigValidated, crawlTimeout := 0,
             parallel := 2, crawlCount := 0 } :=
  ⟨rfl, by simp, rfl,
   (create_then_get_roundtrip okManager validPayload
      ⟨"0 0 * * *", false, 0, 2, sampleConfigValidated⟩ sampleArchive
      sampleUser "new-id" [] "job-1" rfl (by simp) rfl).2⟩

end CrawlConfigs
